import Mathlib

/-!
Verification of the GyanGuru backend (Flask app for AI-assisted ML learning).

Shallow embedding of the pure/deterministic logic of the repository:
`utils/code_utils.py` (dependency detection, setup texts, code persistence),
`utils/gemini_utils.py` (retry/backoff, code-fence stripping),
`utils/tts_utils.py` (word count / duration estimate),
`utils/image_utils.py` (diagram generation with placeholder fallback), and
the request-validation prefixes of `app.py`.

Python strings are modelled as `List Char` (`Str`); external effects
(file writes, the Gemini/gTTS backends, `datetime.now()`) are modelled as
explicit environment values describing each call's outcome.  Character
predicates (`str.isalnum`, `\w`, `\s`) are modelled at ASCII precision,
which covers every value these claims quantify over.
-/

namespace GyanGuru

abbrev Str := List Char

/-- Python whitespace for `str.strip` / `str.split` / regex `\s` (ASCII part). -/
def pyIsSpace (c : Char) : Bool :=
  c == ' ' || c == '\t' || c == '\n' || c == '\r' || c == '\x0b' || c == '\x0c'

/-- Python `str.strip()`: drop whitespace from both ends. -/
def pyStrip (l : Str) : Str :=
  ((l.dropWhile pyIsSpace).reverse.dropWhile pyIsSpace).reverse

/-- Regex `\w` (ASCII): letters, digits, underscore. -/
def isWordChar (c : Char) : Bool := c.isAlphanum || c == '_'

/-- Python `sub in s` (substring containment). -/
def hasSub (hay needle : Str) : Bool :=
  needle.isPrefixOf hay ||
    (match hay with
     | [] => false
     | _ :: t => hasSub t needle)

/-- Python `str.lower()` (ASCII). -/
def pyLower (l : Str) : Str := l.map Char.toLower

/-- Split at every character satisfying `p` (keeps empty segments),
like Python `str.split(sep)` for a one-character separator. -/
def splitOnPred (p : Char → Bool) (l : Str) : List Str :=
  l.foldr (fun c acc => if p c then [] :: acc else (c :: acc.headD []) :: acc.tail) [[]]

/-- Python `code.split('\n')`. -/
def splitLines (l : Str) : List Str := splitOnPred (fun c => c == '\n') l

/-- Python `text.split()` with no argument: whitespace runs, no empties. -/
def pyWords (l : Str) : List Str :=
  (splitOnPred pyIsSpace l).filter (fun w => !w.isEmpty)

/-- Python `' '.join(ws)`. -/
def joinSpace (ws : List Str) : Str := List.intercalate [' '] ws

/-- Python `os.path.join(a, b)` for the shapes used in this repository:
`b` absolute wins, otherwise a single separator is inserted
(the output directories are constants without a trailing slash). -/
def pyPathJoin (a b : Str) : Str :=
  if b.headD ' ' == '/' then b else a ++ '/' :: b

/-- Python `sorted(...)` on strings: lexicographic by code point. -/
def pySorted (l : List Str) : List Str := List.insertionSort (· ≤ ·) l

/-! ## `utils/code_utils.py` — `CodeProcessor` -/

/-- Table `CodeProcessor.KNOWN_PACKAGES`: alias table mapping import names to pip
package names (`code_utils.py` lines 16-43). -/
def KNOWN_PACKAGES : List (Str × Str) :=
  [ ("numpy".data, "numpy".data)
  , ("np".data, "numpy".data)
  , ("pandas".data, "pandas".data)
  , ("pd".data, "pandas".data)
  , ("matplotlib".data, "matplotlib".data)
  , ("plt".data, "matplotlib".data)
  , ("seaborn".data, "seaborn".data)
  , ("sns".data, "seaborn".data)
  , ("sklearn".data, "scikit-learn".data)
  , ("tensorflow".data, "tensorflow".data)
  , ("tf".data, "tensorflow".data)
  , ("keras".data, "keras".data)
  , ("torch".data, "torch".data)
  , ("cv2".data, "opencv-python".data)
  , ("PIL".data, "Pillow".data)
  , ("scipy".data, "scipy".data)
  , ("xgboost".data, "xgboost".data)
  , ("lightgbm".data, "lightgbm".data)
  , ("nltk".data, "nltk".data)
  , ("spacy".data, "spacy".data)
  , ("transformers".data, "transformers".data)
  , ("datasets".data, "datasets".data)
  , ("tqdm".data, "tqdm".data)
  , ("requests".data, "requests".data)
  , ("bs4".data, "beautifulsoup4".data)
  , ("networkx".data, "networkx".data) ]

/-- Python `module in KNOWN_PACKAGES` / `KNOWN_PACKAGES[module]`. -/
def lookupKnown (m : Str) : Option Str :=
  (KNOWN_PACKAGES.find? (fun p => p.1 == m)).map (fun p => p.2)

/-- Predicate `CodeProcessor._is_stdlib`: the fixed standard-library name set
(`code_utils.py` lines 99-109). -/
def stdlib_modules : List Str :=
  [ "os".data, "sys".data, "math".data, "random".data, "time".data,
    "datetime".data, "json".data,
    "collections".data, "itertools".data, "functools".data, "typing".data,
    "re".data,
    "copy".data, "pickle".data, "csv".data, "io".data, "string".data,
    "textwrap".data,
    "struct".data, "codecs".data, "unicodedata".data, "warnings".data,
    "logging".data,
    "abc".data, "contextlib".data, "pathlib".data, "tempfile".data,
    "shutil".data,
    "argparse".data, "configparser".data, "hashlib".data, "secrets".data,
    "threading".data, "multiprocessing".data, "queue".data, "asyncio".data,
    "unittest".data, "doctest".data, "pdb".data, "timeit".data,
    "statistics".data,
    "dataclasses".data, "enum".data, "numbers".data, "decimal".data,
    "fractions".data ]

def is_stdlib (m : Str) : Bool := stdlib_modules.contains m

/-- Embeds `re.match` of the pattern `^<kw>\s+(\w+)` on a line: the keyword literally at the start,
then one or more whitespace characters, then the captured `\w+` group. -/
def matchImportKw (kw : Str) (line : Str) : Option Str :=
  if kw.isPrefixOf line then
    let rest := line.drop kw.length
    if (rest.takeWhile pyIsSpace).isEmpty then none
    else
      let word := (rest.dropWhile pyIsSpace).takeWhile isWordChar
      if word.isEmpty then none else some word
  else none

/-- Modules a single (stripped) line contributes: both patterns of
`import_patterns` are tried (`code_utils.py` lines 72-83). -/
def lineModules (line : Str) : List Str :=
  (matchImportKw "import".data (pyStrip line)).toList ++
    (matchImportKw "from".data (pyStrip line)).toList

/-- All modules collected over the lines of the code text. -/
def collectModules (code : Str) : List Str :=
  ((splitLines code).map lineModules).flatten

/-- Per-module pip classification (`code_utils.py` lines 86-89): alias table
first, then the stdlib set drops the module, otherwise it passes verbatim. -/
def classifyModule (m : Str) : Option Str :=
  match lookupKnown m with
  | some p => some p
  | none => if is_stdlib m then none else some m

/-- Return record of `CodeProcessor.detect_dependencies`. -/
structure DependencyReport where
  imports : List Str
  pip_packages : List Str
  install_command : Option Str
deriving Repr, DecidableEq

/-- Embeds `CodeProcessor.detect_dependencies` (`code_utils.py` lines 58-95):
set-collect imports and pip packages over the lines, then emit sorted
deduplicated lists and an optional joined install command. -/
def detect_dependencies (code : Str) : DependencyReport :=
  let mods := collectModules code
  let pips := (mods.filterMap classifyModule).dedup
  { imports := pySorted mods.dedup
  , pip_packages := pySorted pips
  , install_command :=
      if pips.isEmpty then none
      else some ("pip install ".data ++ joinSpace (pySorted pips)) }

/-- Colab pre-installed set (`code_utils.py` lines 153-154). -/
def colab_preinstalled : List Str :=
  [ "numpy".data, "pandas".data, "matplotlib".data, "seaborn".data,
    "scikit-learn".data, "tensorflow".data, "keras".data ]

/-- Embeds `CodeProcessor._generate_colab_setup` (`code_utils.py` lines 147-164). -/
def generate_colab_setup (packages : List Str) : Str :=
  if packages.isEmpty then
    "# No additional packages required - ready to run!".data
  else
    let packages_to_install := packages.filter (fun p => !colab_preinstalled.contains p)
    if packages_to_install.isEmpty then
      "# All required packages are pre-installed in Google Colab!".data
    else
      "# Run this cell first to install required packages\n!pip install ".data ++
        joinSpace packages_to_install ++
        "\n\n# Then run the main code below".data

/-- Embeds `CodeProcessor._generate_local_setup` (`code_utils.py` lines 166-187). -/
def generate_local_setup (packages : List Str) : Str :=
  if packages.isEmpty then
    "No additional packages required.".data
  else
    "## Local Setup Instructions\n\n1. Create a virtual environment (recommended):\n   ```bash\n   python -m venv ml_env\n   source ml_env/bin/activate  # On Windows: ml_env\\Scripts\\activate\n   ```\n\n2. Install required packages:\n   ```bash\n   pip install ".data ++
      joinSpace packages ++
      "\n   ```\n\n3. Run the code:\n   ```bash\n   python your_script.py\n   ```".data

/-! ## Timestamps and filename derivation -/

/-- A value of `datetime.now()`; fields carry the usual calendar bounds. -/
structure PyTime where
  year : Nat
  month : Nat
  day : Nat
  hour : Nat
  minute : Nat
  second : Nat
deriving Repr, DecidableEq

/-- Zero-padded two-digit field of `strftime`. -/
def pad2 (n : Nat) : Str := [Nat.digitChar (n / 10 % 10), Nat.digitChar (n % 10)]

/-- Zero-padded four-digit `%Y` of `strftime`. -/
def pad4 (n : Nat) : Str :=
  [Nat.digitChar (n / 1000 % 10), Nat.digitChar (n / 100 % 10),
   Nat.digitChar (n / 10 % 10), Nat.digitChar (n % 10)]

/-- Embeds `datetime.now().strftime("%Y%m%d_%H%M%S")`. -/
def fmtCompact (t : PyTime) : Str :=
  pad4 t.year ++ pad2 t.month ++ pad2 t.day ++ '_' ::
    (pad2 t.hour ++ pad2 t.minute ++ pad2 t.second)

/-- Embeds `datetime.now().strftime("%Y-%m-%d %H:%M:%S")`. -/
def fmtHuman (t : PyTime) : Str :=
  pad4 t.year ++ '-' :: (pad2 t.month ++ '-' :: (pad2 t.day ++ ' ' ::
    (pad2 t.hour ++ ':' :: (pad2 t.minute ++ ':' :: pad2 t.second))))

/-- Embeds `"".join(c if c.isalnum() else "_" for c in topic[:30])`, shared by
`save_code_file` and `generate_diagram`. -/
def sanitize_topic (topic : Str) : Str :=
  (topic.take 30).map (fun c => if c.isAlphanum then c else '_')

/-- Python `str.endswith(suffix)`. -/
def pyEndsWith (l suffix : Str) : Bool := suffix.isSuffixOf l

/-! ## `CodeProcessor.save_code_file` (`code_utils.py` lines 189-241) -/

/-- Environment for one `save_code_file` call: the two `datetime.now()`
results (filename derivation and header) and the outcome of the
`open`/`write` (an exception message when it raises). -/
structure SaveEnv where
  nowName : PyTime
  nowHeader : PyTime
  writeError : Option Str
deriving Repr, DecidableEq

/-- Return record of `save_code_file`; `written` records the file write
(path and full content) that the call performed. -/
structure SaveResult where
  success : Bool
  filepath : Option Str
  filename : Option Str
  relative_path : Option Str
  error : Option Str
  written : Option (Str × Str)
deriving Repr, DecidableEq

/-- Header comment prepended to the saved code
(`code_utils.py` lines 218-224). -/
def codeHeader (topic : Str) (t : PyTime) : Str :=
  "\"\"\"\nGenerated by GyanGuru - AI ML Learning Assistant\nTopic: ".data ++
    topic ++ "\nGenerated: ".data ++ fmtHuman t ++ "\n\"\"\"\n\n".data

/-- The derived code filename when none is supplied:
`f"{safe_topic}_{timestamp}.py"`. -/
def derivedCodeFilename (topic : Str) (t : PyTime) : Str :=
  sanitize_topic topic ++ '_' :: (fmtCompact t ++ ".py".data)

/-- Embeds `CodeProcessor.save_code_file`: derive the filename (Python `not filename`
is true for both `None` and `""`), force the `.py` extension, join the path,
write header + code; any exception is caught and reported structurally. -/
def save_code_file (env : SaveEnv) (output_dir : Str) (code topic : Str)
    (filenameArg : Option Str) : SaveResult :=
  let filename0 :=
    if (filenameArg.getD []).isEmpty then derivedCodeFilename topic env.nowName
    else filenameArg.getD []
  let filename :=
    if pyEndsWith filename0 ".py".data then filename0 else filename0 ++ ".py".data
  let filepath := pyPathJoin output_dir filename
  match env.writeError with
  | some msg =>
      { success := false, filepath := none, filename := none,
        relative_path := none, error := some msg, written := none }
  | none =>
      { success := true
      , filepath := some filepath
      , filename := some filename
      , relative_path := some ("/static/generated/code/".data ++ filename)
      , error := none
      , written := some (filepath, codeHeader topic env.nowHeader ++ code) }

/-! ## `utils/gemini_utils.py` — `GeminiClient` -/

/-- Rate-limit test of `_retry_with_backoff`
(`gemini_utils.py` line 50): `"429" in str(e) or "quota" in str(e).lower()`. -/
def isRateLimitMsg (e : Str) : Bool :=
  hasSub e "429".data || hasSub (pyLower e) "quota".data

/-- The retry loop of `_retry_with_backoff`, with the outcome of the `n`-th
call of `func` supplied by `f`.  Returns the final outcome together with the
list of `time.sleep` durations performed (in seconds).  Each rate-limited
failure sleeps `2 ** attempt * 2` and continues; any other failure re-raises;
an exhausted loop raises the generic message. -/
def retryFrom (f : Nat → Except Str α) : Nat → Nat → List Nat →
    Except Str α × List Nat
  | _, 0, sleeps => (Except.error "Max retries exceeded for API call".data, sleeps)
  | attempt, remaining + 1, sleeps =>
      match f attempt with
      | Except.ok v => (Except.ok v, sleeps)
      | Except.error e =>
          if isRateLimitMsg e then
            retryFrom f (attempt + 1) remaining (sleeps ++ [2 ^ attempt * 2])
          else (Except.error e, sleeps)

/-- Embeds `GeminiClient._retry_with_backoff(func, max_retries=3)`. -/
def retry_with_backoff (f : Nat → Except Str α) (max_retries : Nat := 3) :
    Except Str α × List Nat :=
  retryFrom f 0 max_retries []

/-- First stage of the fence cleanup in `generate_code_example`
(`gemini_utils.py` lines 157-160): drop the exact leading marker. -/
def stripLeadFence (l : Str) : Str :=
  if "```python".data.isPrefixOf l then l.drop 9
  else if "```".data.isPrefixOf l then l.drop 3
  else l

/-- Second stage (`gemini_utils.py` lines 161-162): drop the exact trailing
marker (`code[:-3]`). -/
def stripTrailFence (l : Str) : Str :=
  if pyEndsWith l "```".data then l.take (l.length - 3) else l

/-- Full post-processing of the code response
(`gemini_utils.py` lines 156-163): strip, remove fences, strip again. -/
def clean_code_response (l : Str) : Str :=
  pyStrip (stripTrailFence (stripLeadFence (pyStrip l)))

/-! ## `utils/tts_utils.py` — `TextToSpeech.text_to_speech` -/

/-- Python 3 `round` to an integer: banker's rounding (half to even). -/
def bankersRound (q : ℚ) : ℤ :=
  let f := ⌊q⌋
  let r := q - (f : ℚ)
  if r < 1 / 2 then f
  else if 1 / 2 < r then f + 1
  else if Even f then f else f + 1

/-- Python `round(x, 1)` on the exact rational value. -/
def pyRound1 (q : ℚ) : ℚ := (bankersRound (q * 10) : ℚ) / 10

/-- Environment for one `text_to_speech` call: the `datetime.now()` value and
the outcome of `gTTS(...).save(filepath)`. -/
structure TtsEnv where
  now : PyTime
  saveError : Option Str
deriving Repr, DecidableEq

/-- Return record of `text_to_speech`. -/
structure TtsResult where
  success : Bool
  filepath : Option Str
  filename : Option Str
  relative_path : Option Str
  word_count : Option Nat
  estimated_duration_minutes : Option ℚ
  language : Option Str
  error : Option Str
deriving Repr, DecidableEq

/-- Embeds `TextToSpeech.text_to_speech` (`tts_utils.py` lines 28-82): derive a
timestamped filename when none given, force `.mp3`, render the audio, and
report word count and the 150-words-per-minute duration estimate. -/
def text_to_speech (env : TtsEnv) (output_dir : Str) (text : Str)
    (filenameArg : Option Str) (language : Str := "en".data) : TtsResult :=
  let filename0 :=
    if (filenameArg.getD []).isEmpty then
      "audio_lesson_".data ++ fmtCompact env.now
    else filenameArg.getD []
  let filename :=
    if pyEndsWith filename0 ".mp3".data then filename0
    else filename0 ++ ".mp3".data
  let filepath := pyPathJoin output_dir filename
  match env.saveError with
  | some msg =>
      { success := false, filepath := none, filename := none,
        relative_path := none, word_count := none,
        estimated_duration_minutes := none, language := none,
        error := some msg }
  | none =>
      let word_count := (pyWords text).length
      { success := true
      , filepath := some filepath
      , filename := some filename
      , relative_path := some ("/static/generated/audio/".data ++ filename)
      , word_count := some word_count
      , estimated_duration_minutes := some (pyRound1 ((word_count : ℚ) / 150))
      , language := some language
      , error := none }

/-! ## `utils/image_utils.py` — `ImageGenerator` -/

/-- Outcome of the primary Gemini image call: either the model call raised,
or it completed with the (possibly empty) list of response parts, each part
carrying its decoded inline image bytes when present.  The base64 decoding is
stdlib, not repository code, so parts carry the decoded bytes directly. -/
inductive PrimaryOutcome where
  | raises (msg : Str)
  | completed (parts : List (Option (List Nat)))
deriving Repr, DecidableEq

/-- Environment for one `generate_diagram` call. -/
structure ImgEnv where
  now : PyTime
  primary : PrimaryOutcome
  writeOk : Bool
  placeholderError : Option Str
deriving Repr, DecidableEq

/-- A file write performed by the image generator: raw decoded bytes on the
primary path, or the procedurally drawn placeholder (`img.save`). -/
inductive ImgWrite where
  | bytes (path : Str) (data : List Nat)
  | placeholderImage (path : Str) (topic diagram_type : Str)
deriving Repr, DecidableEq

/-- Return record of `generate_diagram` / `_create_placeholder_image`. -/
structure ImgResult where
  success : Bool
  filepath : Option Str
  filename : Option Str
  relative_path : Option Str
  topic : Option Str
  diagram_type : Option Str
  method : Option Str
  note : Option Str
  error : Option Str
deriving Repr, DecidableEq

/-- The first part carrying inline image data, as found by the
`for part in response.candidates[0].content.parts` loop. -/
def findInline (parts : List (Option (List Nat))) : Option (List Nat) :=
  parts.findSome? id

/-- Embeds `ImageGenerator._create_placeholder_image`
(`image_utils.py` lines 117-177): draw and save the placeholder; an
exception from `img.save` is caught and reported structurally. -/
def create_placeholder_image (env : ImgEnv) (topic diagram_type filename filepath : Str) :
    ImgResult × List ImgWrite :=
  match env.placeholderError with
  | none =>
      ({ success := true
       , filepath := some filepath
       , filename := some filename
       , relative_path := some ("/static/generated/images/".data ++ filename)
       , topic := some topic
       , diagram_type := some diagram_type
       , method := some "placeholder".data
       , note := some "Placeholder image - Gemini image generation unavailable".data
       , error := none },
       [ImgWrite.placeholderImage filepath topic diagram_type])
  | some msg =>
      ({ success := false
       , filepath := none, filename := none, relative_path := none
       , topic := none, diagram_type := none, method := none, note := none
       , error := some ("Failed to create placeholder: ".data ++ msg) }, [])

/-- The derived image filename when none is supplied:
`f"{safe_topic}_{diagram_type}_{timestamp}.png"`. -/
def derivedImageFilename (topic diagram_type : Str) (t : PyTime) : Str :=
  sanitize_topic topic ++ '_' :: (diagram_type ++ '_' :: (fmtCompact t ++ ".png".data))

/-- Embeds `ImageGenerator.generate_diagram` (`image_utils.py` lines 36-115):
derive the filename, attempt the primary Gemini path (any exception there is
caught and logged), write the first inline image when present, otherwise fall
back to the placeholder.  The outer handler catches exceptions of the
derivation itself; nothing in that region can raise, so the embedding is a
total function into `ImgResult` — no exception reaches the caller. -/
def generate_diagram (env : ImgEnv) (output_dir : Str) (topic : Str)
    (diagram_type : Str) (filenameArg : Option Str) : ImgResult × List ImgWrite :=
  let filename :=
    if (filenameArg.getD []).isEmpty then
      derivedImageFilename topic diagram_type env.now
    else filenameArg.getD []
  let filepath := pyPathJoin output_dir filename
  match env.primary with
  | PrimaryOutcome.raises _ =>
      create_placeholder_image env topic diagram_type filename filepath
  | PrimaryOutcome.completed parts =>
      match findInline parts with
      | some data =>
          if env.writeOk then
            ({ success := true
             , filepath := some filepath
             , filename := some filename
             , relative_path := some ("/static/generated/images/".data ++ filename)
             , topic := some topic
             , diagram_type := some diagram_type
             , method := some "gemini".data
             , note := none
             , error := none },
             [ImgWrite.bytes filepath data])
          else create_placeholder_image env topic diagram_type filename filepath
      | none => create_placeholder_image env topic diagram_type filename filepath

/-! ## `app.py` — request-validation prefixes of the API handlers -/

/-- A parsed JSON body as the handlers read it: the optional `topic` and the
optional mode-specific enum field (`depth` / `complexity` / `diagram_type`). -/
structure ApiBody where
  topic : Option Str
  enumField : Option Str
deriving Repr, DecidableEq

/-- Enum guard of `api_generate_text` (`app.py` lines 125, 130-131). -/
def validate_depth (d : Str) : Str :=
  if ["brief".data, "intermediate".data, "comprehensive".data].contains d then d
  else "comprehensive".data

/-- Enum guard of `api_generate_code` (`app.py` lines 155, 160-161). -/
def validate_complexity (c : Str) : Str :=
  if ["basic".data, "intermediate".data, "advanced".data].contains c then c
  else "intermediate".data

/-- Enum guard of `api_generate_image` (`app.py` lines 259, 264-265). -/
def validate_diagram_type (d : Str) : Str :=
  if ["architecture".data, "flowchart".data, "concept_map".data,
      "visualization".data].contains d then d
  else "architecture".data

/-- The shared validation prefix of the three enum-bearing handlers:
missing body → 400, stripped-empty topic → 400, otherwise proceed with the
stripped topic and the guarded enum value (the raw value when recognized,
the documented default otherwise). -/
def api_validate (deflt : Str) (guard : Str → Str) (body : Option ApiBody) :
    Except (Str × Nat) (Str × Str) :=
  match body with
  | none => Except.error ("No data provided".data, 400)
  | some data =>
      let topic := pyStrip (data.topic.getD [])
      let enumVal := data.enumField.getD deflt
      if topic.isEmpty then Except.error ("Topic is required".data, 400)
      else Except.ok (topic, guard enumVal)

/-- Validation prefix of `api_generate_text`. -/
def api_generate_text_validate : Option ApiBody → Except (Str × Nat) (Str × Str) :=
  api_validate "comprehensive".data validate_depth

/-- Validation prefix of `api_generate_code`. -/
def api_generate_code_validate : Option ApiBody → Except (Str × Nat) (Str × Str) :=
  api_validate "intermediate".data validate_complexity

/-- Validation prefix of `api_generate_image`. -/
def api_generate_image_validate : Option ApiBody → Except (Str × Nat) (Str × Str) :=
  api_validate "architecture".data validate_diagram_type

/-! ## Shared helper lemmas -/

theorem mem_pySorted {a : Str} {l : List Str} : a ∈ pySorted l ↔ a ∈ l :=
  (List.perm_insertionSort _ l).mem_iff

theorem sorted_pySorted (l : List Str) : (pySorted l).Sorted (· ≤ ·) :=
  List.sorted_insertionSort _ l

theorem nodup_pySorted {l : List Str} (h : l.Nodup) : (pySorted l).Nodup :=
  ((List.perm_insertionSort _ l).symm).nodup h

theorem pySorted_eq_nil {l : List Str} : pySorted l = [] ↔ l = [] := by
  constructor
  · intro h
    have hp : List.Perm (pySorted l) l := List.perm_insertionSort _ l
    rw [h] at hp
    exact hp.symm.eq_nil
  · intro h
    subst h
    rfl

/-- Taking `r.length` items of `r ++ s` gives back `r`, on char lists. -/
theorem take_append_length (r s : Str) : (r ++ s).take r.length = r :=
  List.take_left r s

/-! ## C2 — `detect_dependencies` -/

/-- Claim C2: for every input code text, `detect_dependencies` collects as
imports exactly the identifiers captured from lines matching
`^import \s+(\w+)` or `^from \s+(\w+)` (after stripping); each import maps
through the alias table when present, is dropped when in the stdlib set, and
otherwise passes verbatim (captured by `classifyModule`); both output lists
are deduplicated and alphabetically sorted; `install_command` is `none`
exactly when the package list is empty; and on the concrete code
`import numpy as np\nfrom os import path` the package list contains
`numpy` and not `os`. -/
theorem claim_C2 (code : Str) :
    ((detect_dependencies code).imports.Sorted (· ≤ ·) ∧
      (detect_dependencies code).imports.Nodup) ∧
    ((detect_dependencies code).pip_packages.Sorted (· ≤ ·) ∧
      (detect_dependencies code).pip_packages.Nodup) ∧
    (∀ m, m ∈ (detect_dependencies code).imports ↔
      ∃ line ∈ splitLines code, m ∈ lineModules line) ∧
    (∀ p, p ∈ (detect_dependencies code).pip_packages ↔
      ∃ m, m ∈ (detect_dependencies code).imports ∧ classifyModule m = some p) ∧
    ((detect_dependencies code).install_command = none ↔
      (detect_dependencies code).pip_packages = []) ∧
    ("numpy".data ∈
        (detect_dependencies ("import numpy as np\nfrom os import path".data)).pip_packages ∧
      "os".data ∉
        (detect_dependencies ("import numpy as np\nfrom os import path".data)).pip_packages) := by
  refine ⟨⟨?_, ?_⟩, ⟨?_, ?_⟩, ?_, ?_, ?_, ?_⟩
  · exact sorted_pySorted _
  · exact nodup_pySorted (List.nodup_dedup _)
  · exact sorted_pySorted _
  · exact nodup_pySorted (List.nodup_dedup _)
  · intro m
    show m ∈ pySorted (collectModules code).dedup ↔ _
    rw [mem_pySorted, List.mem_dedup]
    simp only [collectModules, List.mem_flatten, List.mem_map]
    constructor
    · rintro ⟨_, ⟨line, hline, rfl⟩, hm⟩
      exact ⟨line, hline, hm⟩
    · rintro ⟨line, hline, hm⟩
      exact ⟨lineModules line, ⟨line, hline, rfl⟩, hm⟩
  · intro p
    show p ∈ pySorted ((collectModules code).filterMap classifyModule).dedup ↔ _
    rw [mem_pySorted, List.mem_dedup, List.mem_filterMap]
    constructor
    · rintro ⟨m, hm, hc⟩
      refine ⟨m, ?_, hc⟩
      show m ∈ pySorted (collectModules code).dedup
      rw [mem_pySorted, List.mem_dedup]
      exact hm
    · rintro ⟨m, hm, hc⟩
      refine ⟨m, ?_, hc⟩
      have : m ∈ pySorted (collectModules code).dedup := hm
      rw [mem_pySorted, List.mem_dedup] at this
      exact this
  · show (if ((collectModules code).filterMap classifyModule).dedup.isEmpty
        then none else some _) = none ↔
      pySorted ((collectModules code).filterMap classifyModule).dedup = []
    rw [pySorted_eq_nil]
    rcases h : ((collectModules code).filterMap classifyModule).dedup with _ | ⟨a, l⟩
    · simp
    · simp
  · constructor
    · decide
    · decide

/-- Witness for C2: the concrete-example conjunct extracted at a concrete
input — the package list for the sample code contains numpy and not os. -/
theorem claim_C2_witness :
    "numpy".data ∈
      (detect_dependencies ("import numpy as np\nfrom os import path".data)).pip_packages ∧
    "os".data ∉
      (detect_dependencies ("import numpy as np\nfrom os import path".data)).pip_packages :=
  (claim_C2 "import numpy as np\nfrom os import path".data).2.2.2.2.2

/-! ## C6 — Colab / local setup texts -/

/-- Claim C6: empty package list: `colab_setup` is exactly the ready-to-run
message and `local_setup` exactly the no-packages message.  Non-empty list:
the Colab text subtracts the fixed pre-installed set and emits either the
all-pre-installed message or the install snippet for exactly the remainder,
while the local text interpolates the full package list into the fixed
three-step template. -/
theorem claim_C6 (packages : List Str) :
    (packages = [] →
      generate_colab_setup packages =
          "# No additional packages required - ready to run!".data ∧
        generate_local_setup packages =
          "No additional packages required.".data) ∧
    (packages ≠ [] →
      (generate_colab_setup packages =
        (if packages.filter (fun p => !colab_preinstalled.contains p) = [] then
          "# All required packages are pre-installed in Google Colab!".data
        else
          "# Run this cell first to install required packages\n!pip install ".data ++
            joinSpace (packages.filter (fun p => !colab_preinstalled.contains p)) ++
            "\n\n# Then run the main code below".data)) ∧
      generate_local_setup packages =
        "## Local Setup Instructions\n\n1. Create a virtual environment (recommended):\n   ```bash\n   python -m venv ml_env\n   source ml_env/bin/activate  # On Windows: ml_env\\Scripts\\activate\n   ```\n\n2. Install required packages:\n   ```bash\n   pip install ".data ++
          joinSpace packages ++
          "\n   ```\n\n3. Run the code:\n   ```bash\n   python your_script.py\n   ```".data) := by
  constructor
  · rintro rfl
    exact ⟨rfl, rfl⟩
  · intro hne
    have hE : packages.isEmpty = false := by
      rcases packages with _ | ⟨a, l⟩
      · exact absurd rfl hne
      · rfl
    constructor
    · show generate_colab_setup packages = _
      rw [generate_colab_setup, hE]
      simp only [Bool.false_eq_true, if_false]
      rcases h : packages.filter (fun p => !colab_preinstalled.contains p) with _ | ⟨a, l⟩
      · rfl
      · rfl
    · rw [generate_local_setup, hE]
      rfl

/-- Witness for C6: both branches evaluated at concrete package lists. -/
theorem claim_C6_witness :
    generate_colab_setup [] = "# No additional packages required - ready to run!".data ∧
      generate_colab_setup ["torch".data] =
        "# Run this cell first to install required packages\n!pip install ".data ++
          joinSpace ["torch".data] ++ "\n\n# Then run the main code below".data := by
  constructor
  · exact (claim_C6 []).1 rfl |>.1
  · have h := (claim_C6 ["torch".data]).2 (by decide)
    have h1 := h.1
    rw [show (["torch".data].filter (fun p => !colab_preinstalled.contains p)) = ["torch".data] from by decide] at h1
    rw [if_neg (by decide : ¬ (["torch".data] = ([] : List Str)))] at h1
    exact h1

/-! ## C4 — `_retry_with_backoff` -/

/-- Backoff sleeps performed before reaching attempt `i`:
`2 ** a * 2` for each failed attempt `a < i`. -/
def sleepsBefore (i : Nat) : List Nat := (List.range i).map (fun a => 2 ^ a * 2)

/-- Attempt `j` fails with a rate-limited error message. -/
def rlFails (f : Nat → Except Str α) (j : Nat) : Prop :=
  ∃ e, f j = Except.error e ∧ isRateLimitMsg e = true

theorem retryFrom_ok {f : Nat → Except Str α} {a r : Nat} {s : List Nat} {v : α}
    (h : f a = Except.ok v) : retryFrom f a (r + 1) s = (Except.ok v, s) := by
  simp [retryFrom, h]

theorem retryFrom_rl {f : Nat → Except Str α} {a r : Nat} {s : List Nat} {e : Str}
    (h : f a = Except.error e) (hrl : isRateLimitMsg e = true) :
    retryFrom f a (r + 1) s = retryFrom f (a + 1) r (s ++ [2 ^ a * 2]) := by
  simp [retryFrom, h, hrl]

theorem retryFrom_other {f : Nat → Except Str α} {a r : Nat} {s : List Nat} {e : Str}
    (h : f a = Except.error e) (hrl : isRateLimitMsg e = false) :
    retryFrom f a (r + 1) s = (Except.error e, s) := by
  simp [retryFrom, h, hrl]

/-- Reach attempt `i ≤ 3` after rate-limited failures of all earlier attempts. -/
theorem retry_reaches (f : Nat → Except Str α) :
    ∀ i, i ≤ 3 → (∀ j, j < i → rlFails f j) →
      retry_with_backoff f = retryFrom f i (3 - i) (sleepsBefore i) := by
  intro i
  induction i with
  | zero => intro _ _; rfl
  | succ n ih =>
      intro hle h
      have hn := ih (Nat.le_of_succ_le hle) (fun j hj => h j (Nat.lt_succ_of_lt hj))
      obtain ⟨e, he, hrl⟩ := h n (Nat.lt_succ_self n)
      have h3n : 3 - n = (3 - (n + 1)) + 1 := by omega
      rw [hn, h3n, retryFrom_rl he hrl]
      congr 1
      simp [sleepsBefore, List.range_succ]

/-- Claim C4: for every sequence of wrapped-call outcomes, a success at some
attempt `i < 3`, after rate-limited failures of all earlier attempts,
returns that attempt's result, with waits `2 ** a * 2` before each retry; a
failure whose message has no rate-limit indicator propagates immediately;
and three rate-limited failures exhaust the loop and raise the generic
"Max retries exceeded for API call" error after waits of 2, 4 and 8 seconds. -/
theorem claim_C4 (f : Nat → Except Str α) :
    (∀ i, i < 3 → (∀ j, j < i → rlFails f j) →
      (∀ v, f i = Except.ok v →
        retry_with_backoff f = (Except.ok v, sleepsBefore i)) ∧
      (∀ e, f i = Except.error e → isRateLimitMsg e = false →
        retry_with_backoff f = (Except.error e, sleepsBefore i))) ∧
    ((∀ j, j < 3 → rlFails f j) →
      retry_with_backoff f =
        (Except.error "Max retries exceeded for API call".data, [2, 4, 8])) := by
  constructor
  · intro i hi hprev
    have hreach := retry_reaches f i (Nat.le_of_lt hi) hprev
    have h3i : 3 - i = (3 - (i + 1)) + 1 := by omega
    constructor
    · intro v hv
      rw [hreach, h3i, retryFrom_ok hv]
    · intro e he hrl
      rw [hreach, h3i, retryFrom_other he hrl]
  · intro h
    have hreach := retry_reaches f 3 (Nat.le_refl 3) h
    rw [hreach]
    have : sleepsBefore 3 = [2, 4, 8] := by decide
    rw [this]
    rfl

/-- Witness for C4: a concrete outcome sequence — two rate-limited failures
then a success — returns the third attempt's value after sleeping 2 then 4
seconds; and a concrete non-rate-limited failure propagates at once. -/
theorem claim_C4_witness :
    retry_with_backoff
        (fun n => if n < 2 then Except.error "Quota exceeded".data
                  else (Except.ok 7 : Except Str Nat)) =
      (Except.ok 7, [2, 4]) ∧
    retry_with_backoff
        (fun _ => (Except.error "boom".data : Except Str Nat)) =
      (Except.error "boom".data, []) := by
  constructor
  · have h := (claim_C4 (fun n => if n < 2 then Except.error "Quota exceeded".data
        else (Except.ok 7 : Except Str Nat))).1 2 (by decide)
      (by
        intro j hj
        refine ⟨"Quota exceeded".data, ?_, by decide⟩
        show (if j < 2 then Except.error "Quota exceeded".data else Except.ok 7) =
          Except.error "Quota exceeded".data
        rw [if_pos hj])
    have h2 := h.1 7 rfl
    rw [h2]
    rfl
  · have h := (claim_C4 (fun _ => (Except.error "boom".data : Except Str Nat))).1 0
      (by decide) (by intro j hj; omega)
    have h2 := h.2 "boom".data rfl (by decide)
    rw [h2]
    rfl

/-! ## C8 — code-fence stripping in `generate_code_example` -/

/-- Claim C8: the post-processing of the code response is the deterministic
composition strip, leading-fence removal, trailing-fence removal, strip,
where the leading stage removes exactly the prefix "```python" when present,
otherwise exactly the prefix "```" when present, and otherwise leaves the
text unchanged; and the trailing stage removes exactly the suffix "```" when
present and otherwise leaves the text unchanged.  No other fence markers are
altered: each stage returns a suffix/prefix of its input obtained only by
removing the stated marker. -/
theorem claim_C8 :
    (∀ s, clean_code_response s =
      pyStrip (stripTrailFence (stripLeadFence (pyStrip s)))) ∧
    (∀ r, stripLeadFence ("```python".data ++ r) = r) ∧
    (∀ r, ¬ "python".data <+: r → stripLeadFence ("```".data ++ r) = r) ∧
    (∀ l, ¬ "```".data <+: l → stripLeadFence l = l) ∧
    (∀ r, stripTrailFence (r ++ "```".data) = r) ∧
    (∀ l, ¬ "```".data <:+ l → stripTrailFence l = l) := by
  refine ⟨fun s => rfl, ?_, ?_, ?_, ?_, ?_⟩
  · intro r
    have hpre : "```python".data.isPrefixOf ("```python".data ++ r) = true :=
      List.isPrefixOf_iff_prefix.mpr (List.prefix_append _ r)
    rw [stripLeadFence, hpre]
    simp only [if_true]
    have : (9 : Nat) = ("```python".data).length := by decide
    rw [this, List.drop_left]
  · intro r hnp
    have h9 : "```python".data = "```".data ++ "python".data := by decide
    have hpre9 : "```python".data.isPrefixOf ("```".data ++ r) = false := by
      rcases h : "```python".data.isPrefixOf ("```".data ++ r) with _ | _
      · rfl
      · exfalso
        apply hnp
        have := List.isPrefixOf_iff_prefix.mp h
        rw [h9] at this
        exact (List.prefix_append_right_inj "```".data).mp this
    have hpre3 : "```".data.isPrefixOf ("```".data ++ r) = true :=
      List.isPrefixOf_iff_prefix.mpr (List.prefix_append _ r)
    rw [stripLeadFence, hpre9, hpre3]
    simp only [Bool.false_eq_true, if_false, if_true]
    have : (3 : Nat) = ("```".data).length := by decide
    rw [this, List.drop_left]
  · intro l hn3
    have hpre3 : "```".data.isPrefixOf l = false := by
      rcases h : "```".data.isPrefixOf l with _ | _
      · rfl
      · exact absurd (List.isPrefixOf_iff_prefix.mp h) hn3
    have hpre9 : "```python".data.isPrefixOf l = false := by
      rcases h : "```python".data.isPrefixOf l with _ | _
      · rfl
      · exfalso
        apply hn3
        have h93 : "```".data <+: "```python".data := by decide
        exact h93.trans (List.isPrefixOf_iff_prefix.mp h)
    rw [stripLeadFence, hpre9, hpre3]
    simp
  · intro r
    have hsuf : pyEndsWith (r ++ "```".data) "```".data = true :=
      List.isSuffixOf_iff_suffix.mpr (List.suffix_append r _)
    rw [stripTrailFence, hsuf]
    simp only [if_true]
    have hlen : (r ++ "```".data).length - 3 = r.length := by
      rw [List.length_append]
      have h3 : ("```".data).length = 3 := rfl
      omega
    rw [hlen, List.take_left]
  · intro l hn
    have hsuf : pyEndsWith l "```".data = false := by
      rcases h : pyEndsWith l "```".data with _ | _
      · rfl
      · exact absurd (List.isSuffixOf_iff_suffix.mp h) hn
    rw [stripTrailFence, hsuf]
    simp

/-- Witness for C8: the hypotheses discharged on concrete inputs — a fenced
python block is unwrapped, and text without fences is only stripped. -/
theorem claim_C8_witness :
    stripLeadFence ("```python".data ++ "\nx\n".data) = "\nx\n".data ∧
    stripLeadFence ("```".data ++ "\nx\n".data) = "\nx\n".data ∧
    stripTrailFence ("\nx\n".data ++ "```".data) = "\nx\n".data ∧
    stripLeadFence "plain".data = "plain".data ∧
    stripTrailFence "plain".data = "plain".data := by
  refine ⟨claim_C8.2.1 _, claim_C8.2.2.1 _ (by decide), claim_C8.2.2.2.2.1 _,
    claim_C8.2.2.2.1 _ (by decide), claim_C8.2.2.2.2.2 _ (by decide)⟩

/-! ## C5 — `save_code_file` filename and header -/

/-- Appending a suffix makes `pyEndsWith` true. -/
theorem pyEndsWith_append (r s : Str) : pyEndsWith (r ++ s) s = true :=
  List.isSuffixOf_iff_suffix.mpr (List.suffix_append r s)

/-- Claim C5: with no explicit filename and a successful write,
`save_code_file` derives its filename as the sanitized (non-alphanumeric
characters replaced by underscores) topic truncated to 30 characters, an
underscore, the compact timestamp, and the forced `.py` extension; the file
content is the fixed header comment — which contains the literal topic
string — followed by the code body; and topic "Gradient Descent" yields the
filename `Gradient_Descent_<timestamp>.py`. -/
theorem claim_C5 (env : SaveEnv) (dir code topic : Str)
    (hw : env.writeError = none) :
    (save_code_file env dir code topic none).success = true ∧
    (save_code_file env dir code topic none).filename =
      some (sanitize_topic topic ++ '_' :: (fmtCompact env.nowName ++ ".py".data)) ∧
    (save_code_file env dir code topic none).written =
      some (pyPathJoin dir
              (sanitize_topic topic ++ '_' :: (fmtCompact env.nowName ++ ".py".data)),
            codeHeader topic env.nowHeader ++ code) ∧
    codeHeader topic env.nowHeader =
      "\"\"\"\nGenerated by GyanGuru - AI ML Learning Assistant\nTopic: ".data ++
        topic ++ "\nGenerated: ".data ++ fmtHuman env.nowHeader ++ "\n\"\"\"\n\n".data ∧
    (topic = "Gradient Descent".data →
      (save_code_file env dir code topic none).filename =
        some ("Gradient_Descent_".data ++ fmtCompact env.nowName ++ ".py".data)) := by
  have hend : pyEndsWith (derivedCodeFilename topic env.nowName) ".py".data = true := by
    have : derivedCodeFilename topic env.nowName =
        (sanitize_topic topic ++ '_' :: fmtCompact env.nowName) ++ ".py".data := by
      rw [derivedCodeFilename]
      simp
    rw [this]
    exact pyEndsWith_append _ _
  have hfn : (if (((none : Option Str)).getD []).isEmpty then
        derivedCodeFilename topic env.nowName
      else ((none : Option Str)).getD []) = derivedCodeFilename topic env.nowName := rfl
  have hmain : save_code_file env dir code topic none =
      { success := true
      , filepath := some (pyPathJoin dir (derivedCodeFilename topic env.nowName))
      , filename := some (derivedCodeFilename topic env.nowName)
      , relative_path :=
          some ("/static/generated/code/".data ++ derivedCodeFilename topic env.nowName)
      , error := none
      , written := some (pyPathJoin dir (derivedCodeFilename topic env.nowName),
          codeHeader topic env.nowHeader ++ code) } := by
    rw [save_code_file, hw]
    simp only [hfn, hend, if_true]
  refine ⟨?_, ?_, ?_, rfl, ?_⟩
  · rw [hmain]
  · rw [hmain]
    rfl
  · rw [hmain]
    rfl
  · intro ht
    rw [hmain, ht]
    have : derivedCodeFilename "Gradient Descent".data env.nowName =
        "Gradient_Descent_".data ++ fmtCompact env.nowName ++ ".py".data := by
      rw [derivedCodeFilename]
      rw [show sanitize_topic "Gradient Descent".data = "Gradient_Descent".data from by decide]
      rw [show ("Gradient_Descent_".data : Str) = "Gradient_Descent".data ++ ['_'] from by decide]
      simp
    rw [this]

/-- Witness for C5: evaluated at a concrete environment and topic. -/
theorem claim_C5_witness :
    (save_code_file ⟨⟨2024, 3, 7, 9, 5, 2⟩, ⟨2024, 3, 7, 9, 5, 2⟩, none⟩
        "static/generated/code".data "print(1)".data "Gradient Descent".data
        none).filename =
      some ("Gradient_Descent_20240307_090502.py".data) := by
  have h := claim_C5 ⟨⟨2024, 3, 7, 9, 5, 2⟩, ⟨2024, 3, 7, 9, 5, 2⟩, none⟩
    "static/generated/code".data "print(1)".data "Gradient Descent".data rfl
  have h5 := h.2.2.2.2 rfl
  rw [h5]
  decide

/-! ## C9 — `text_to_speech` word count and duration -/

/-- Claim C9: on a successful synthesis, `text_to_speech` reports the number
of whitespace-separated tokens as the word count and the duration estimate
`round(word_count / 150, 1)` minutes; in particular any 300-word script
yields word count 300 and estimated duration exactly 2 minutes. -/
theorem claim_C9 (env : TtsEnv) (dir text : Str) (hw : env.saveError = none) :
    (text_to_speech env dir text none).word_count = some (pyWords text).length ∧
    (text_to_speech env dir text none).estimated_duration_minutes =
      some (pyRound1 (((pyWords text).length : ℚ) / 150)) ∧
    ((pyWords text).length = 300 →
      (text_to_speech env dir text none).estimated_duration_minutes = some 2) := by
  have hmain : ∀ fn fp,
      (TtsResult.mk true fp fn
        (some ("/static/generated/audio/".data ++ (fn.getD [])))
        (some (pyWords text).length)
        (some (pyRound1 (((pyWords text).length : ℚ) / 150)))
        (some "en".data) none).word_count = some (pyWords text).length :=
    fun _ _ => rfl
  rw [text_to_speech, hw]
  refine ⟨rfl, rfl, ?_⟩
  intro h300
  simp only [h300]
  have : pyRound1 ((300 : ℚ) / 150) = 2 := by
    rw [pyRound1, bankersRound]
    norm_num
  rw [show ((300 : Nat) : ℚ) = (300 : ℚ) from by norm_num, this]

/-- A concrete 300-word script: 300 copies of "a" separated by blanks. -/
def script300 : Str := (List.replicate 300 [' ', 'a']).flatten

set_option maxRecDepth 4000 in
/-- Witness for C9: evaluated on the concrete 300-word script. -/
theorem claim_C9_witness :
    (text_to_speech ⟨⟨2024, 3, 7, 9, 5, 2⟩, none⟩ "static/generated/audio".data
        script300 none).word_count = some 300 ∧
    (text_to_speech ⟨⟨2024, 3, 7, 9, 5, 2⟩, none⟩ "static/generated/audio".data
        script300 none).estimated_duration_minutes = some 2 := by
  have hlen : (pyWords script300).length = 300 := by decide
  have h := claim_C9 ⟨⟨2024, 3, 7, 9, 5, 2⟩, none⟩ "static/generated/audio".data
    script300 rfl
  refine ⟨?_, h.2.2 hlen⟩
  rw [h.1, hlen]

/-! ## C7 — enum fallback to documented defaults -/

/-- Claim C7: any depth, complexity or diagram-type value outside the
recognized enumeration is replaced by the documented default (comprehensive,
intermediate, architecture respectively), and the request proceeds — the
handler validation succeeds with the stripped topic and the guarded value
rather than failing. -/
theorem claim_C7 :
    (∀ d, d ∉ ["brief".data, "intermediate".data, "comprehensive".data] →
      validate_depth d = "comprehensive".data) ∧
    (∀ c, c ∉ ["basic".data, "intermediate".data, "advanced".data] →
      validate_complexity c = "intermediate".data) ∧
    (∀ t, t ∉ ["architecture".data, "flowchart".data, "concept_map".data,
        "visualization".data] →
      validate_diagram_type t = "architecture".data) ∧
    (∀ topic enumVal, (pyStrip topic).isEmpty = false →
      api_generate_text_validate (some ⟨some topic, some enumVal⟩) =
        Except.ok (pyStrip topic, validate_depth enumVal) ∧
      api_generate_code_validate (some ⟨some topic, some enumVal⟩) =
        Except.ok (pyStrip topic, validate_complexity enumVal) ∧
      api_generate_image_validate (some ⟨some topic, some enumVal⟩) =
        Except.ok (pyStrip topic, validate_diagram_type enumVal)) := by
  refine ⟨?_, ?_, ?_, ?_⟩
  · intro d hd
    rw [validate_depth]
    rw [if_neg]
    intro hc
    exact hd (List.elem_iff.mp hc)
  · intro c hc
    rw [validate_complexity]
    rw [if_neg]
    intro hm
    exact hc (List.elem_iff.mp hm)
  · intro t ht
    rw [validate_diagram_type]
    rw [if_neg]
    intro hm
    exact ht (List.elem_iff.mp hm)
  · intro topic enumVal hne
    refine ⟨?_, ?_, ?_⟩ <;>
      simp [api_generate_text_validate, api_generate_code_validate,
        api_generate_image_validate, api_validate, hne]

/-- Witness for C7: the unrecognized value "weird" falls back to each
documented default and the validation proceeds. -/
theorem claim_C7_witness :
    validate_depth "weird".data = "comprehensive".data ∧
    validate_complexity "weird".data = "intermediate".data ∧
    validate_diagram_type "weird".data = "architecture".data ∧
    api_generate_text_validate (some ⟨some " ml ".data, some "weird".data⟩) =
      Except.ok (pyStrip " ml ".data, validate_depth "weird".data) := by
  refine ⟨claim_C7.1 _ (by decide), claim_C7.2.1 _ (by decide),
    claim_C7.2.2.1 _ (by decide), (claim_C7.2.2.2 " ml ".data "weird".data (by decide)).1⟩

/-! ## C1 — `generate_diagram` never raises; success when either path works -/

/-- The primary Gemini path completes without an I/O error: the call returns
a part with inline image data and the file write succeeds. -/
def primaryDelivers (env : ImgEnv) : Prop :=
  ∃ parts d, env.primary = PrimaryOutcome.completed parts ∧
    findInline parts = some d ∧ env.writeOk = true

/-- Claim C1: `generate_diagram` always returns a structured result — the
embedding is a total function into `ImgResult`, every handler of the source
being modelled, so no exception reaches the caller — and whenever the
primary path or the placeholder fallback completes without an I/O error the
result has `success = true`; in particular the fallback's success covers a
throwing primary backend. -/
theorem claim_C1 (env : ImgEnv) (dir topic diagram_type : Str)
    (filenameArg : Option Str)
    (h : primaryDelivers env ∨ env.placeholderError = none) :
    (generate_diagram env dir topic diagram_type filenameArg).1.success = true := by
  rcases h with ⟨parts, d, hp, hf, hw⟩ | hpl
  · simp only [generate_diagram, hp, hf, hw, if_true]
  · cases hp : env.primary with
    | raises msg =>
        simp only [generate_diagram, hp, create_placeholder_image, hpl]
    | completed parts =>
        cases hf : findInline parts with
        | none =>
            simp only [generate_diagram, hp, hf, create_placeholder_image, hpl]
        | some d =>
            cases hw : env.writeOk with
            | false =>
                simp only [generate_diagram, hp, hf, hw, Bool.false_eq_true,
                  if_false, create_placeholder_image, hpl]
            | true => simp only [generate_diagram, hp, hf, hw, if_true]

/-- Witness for C1: a throwing primary backend with a healthy placeholder
still reports success, and a delivering primary path reports success. -/
theorem claim_C1_witness :
    (generate_diagram ⟨⟨2024, 1, 2, 3, 4, 5⟩, PrimaryOutcome.raises "boom".data, true, none⟩
        "static/generated/images".data "Topic".data "architecture".data
        none).1.success = true ∧
    (generate_diagram ⟨⟨2024, 1, 2, 3, 4, 5⟩, PrimaryOutcome.completed [some [7]], true,
        some "disk full".data⟩
        "static/generated/images".data "Topic".data "architecture".data
        none).1.success = true := by
  constructor
  · exact claim_C1 _ _ _ _ none (Or.inr rfl)
  · exact claim_C1 _ _ _ _ none (Or.inl ⟨[some [7]], [7], rfl, rfl, rfl⟩)

/-! ## C3 — primary path writes the decoded bytes; method field -/

/-- A concrete environment whose primary Gemini call returns inline image
data and whose file write succeeds. -/
def envPrimaryOk : ImgEnv :=
  ⟨⟨2024, 1, 2, 3, 4, 5⟩, PrimaryOutcome.completed [some [137, 80, 78, 71]], true, none⟩

/-- Counterexample to claim C3 as stated: when the primary path obtains
inline image data, the returned method field is "gemini", not "primary". -/
theorem claim_C3_counterexample :
    ¬ ((generate_diagram envPrimaryOk "static/generated/images".data "Topic".data
          "architecture".data none).1.method = some "primary".data) := by
  decide

/-- Claim C3 as amended: whenever the primary path obtains inline image data
and the write does not raise, the decoded bytes are written to the derived
file path and the result's method field equals "gemini" (not "primary" as
the claim stated); the fallback path's result has method "placeholder". -/
theorem claim_C3_amended (env : ImgEnv) (dir topic diagram_type : Str) :
    (∀ parts d, env.primary = PrimaryOutcome.completed parts →
      findInline parts = some d → env.writeOk = true →
      (generate_diagram env dir topic diagram_type none).1.method =
          some "gemini".data ∧
        (generate_diagram env dir topic diagram_type none).2 =
          [ImgWrite.bytes
            (pyPathJoin dir (derivedImageFilename topic diagram_type env.now)) d]) ∧
    (env.placeholderError = none → ¬ primaryDelivers env →
      (generate_diagram env dir topic diagram_type none).1.method =
        some "placeholder".data) := by
  constructor
  · intro parts d hp hf hw
    constructor
    · simp only [generate_diagram, hp, hf, hw, if_true]
    · simp only [generate_diagram, hp, hf, hw, if_true]
      rfl
  · intro hpl hnd
    cases hp : env.primary with
    | raises msg =>
        simp only [generate_diagram, hp, create_placeholder_image, hpl]
    | completed parts =>
        cases hf : findInline parts with
        | none =>
            simp only [generate_diagram, hp, hf, create_placeholder_image, hpl]
        | some d =>
            cases hw : env.writeOk with
            | false =>
                simp only [generate_diagram, hp, hf, hw, Bool.false_eq_true,
                  if_false, create_placeholder_image, hpl]
            | true => exact absurd ⟨parts, d, hp, hf, hw⟩ hnd

/-- Witness for the amended C3: both branches evaluated concretely. -/
theorem claim_C3_amended_witness :
    (generate_diagram envPrimaryOk "static/generated/images".data "Topic".data
        "architecture".data none).1.method = some "gemini".data ∧
    (generate_diagram ⟨⟨2024, 1, 2, 3, 4, 5⟩, PrimaryOutcome.completed [none], true, none⟩
        "static/generated/images".data "Topic".data "architecture".data
        none).1.method = some "placeholder".data := by
  constructor
  · exact ((claim_C3_amended envPrimaryOk "static/generated/images".data "Topic".data
      "architecture".data).1 [some [137, 80, 78, 71]] [137, 80, 78, 71] rfl rfl rfl).1
  · refine (claim_C3_amended _ "static/generated/images".data "Topic".data
      "architecture".data).2 rfl ?_
    rintro ⟨parts, d, hp, hf, hw⟩
    cases hp
    cases hf

/-! ## C10 — derived filenames are path-safe -/

theorem digitChar_mod_alnum (n : Nat) : (Nat.digitChar (n % 10)).isAlphanum = true := by
  have h : n % 10 < 10 := Nat.mod_lt _ (by norm_num)
  generalize hk : n % 10 = k at h
  interval_cases k <;> decide

theorem pad2_alnum {c : Char} {n : Nat} (h : c ∈ pad2 n) : c.isAlphanum = true := by
  simp only [pad2, List.mem_cons, List.not_mem_nil, or_false] at h
  rcases h with rfl | rfl
  · exact digitChar_mod_alnum _
  · exact digitChar_mod_alnum _

theorem pad4_alnum {c : Char} {n : Nat} (h : c ∈ pad4 n) : c.isAlphanum = true := by
  simp only [pad4, List.mem_cons, List.not_mem_nil, or_false] at h
  rcases h with rfl | rfl | rfl | rfl
  · exact digitChar_mod_alnum _
  · exact digitChar_mod_alnum _
  · exact digitChar_mod_alnum _
  · exact digitChar_mod_alnum _

/-- Every character of the compact timestamp is a digit or an underscore. -/
theorem fmtCompact_chars {c : Char} {t : PyTime} (h : c ∈ fmtCompact t) :
    c.isAlphanum = true ∨ c = '_' := by
  rw [fmtCompact] at h
  rcases List.mem_append.mp h with h | h
  · rcases List.mem_append.mp h with h | h
    · rcases List.mem_append.mp h with h | h
      · exact Or.inl (pad4_alnum h)
      · exact Or.inl (pad2_alnum h)
    · exact Or.inl (pad2_alnum h)
  · rcases List.mem_cons.mp h with h | h
    · exact Or.inr h
    · rcases List.mem_append.mp h with h | h
      · rcases List.mem_append.mp h with h | h
        · exact Or.inl (pad2_alnum h)
        · exact Or.inl (pad2_alnum h)
      · exact Or.inl (pad2_alnum h)

/-- Every character of the sanitized topic is alphanumeric or an underscore. -/
theorem sanitize_topic_chars {c : Char} {topic : Str} (h : c ∈ sanitize_topic topic) :
    c.isAlphanum = true ∨ c = '_' := by
  simp only [sanitize_topic, List.mem_map] at h
  obtain ⟨a, _, rfl⟩ := h
  by_cases ha : a.isAlphanum
  · rw [if_pos ha]
    exact Or.inl ha
  · rw [if_neg ha]
    exact Or.inr rfl

/-- A safe character class: alphanumeric, underscore, or dot. -/
def safeFileChar (c : Char) : Prop := c.isAlphanum = true ∨ c = '_' ∨ c = '.'

theorem derivedCodeFilename_chars {c : Char} {topic : Str} {t : PyTime}
    (h : c ∈ derivedCodeFilename topic t) : safeFileChar c := by
  simp only [derivedCodeFilename, List.mem_append, List.mem_cons] at h
  rcases h with h | h | h
  · rcases sanitize_topic_chars h with h1 | h1
    · exact Or.inl h1
    · exact Or.inr (Or.inl h1)
  · exact Or.inr (Or.inl h)
  · rcases h with h | h
    · rcases fmtCompact_chars h with h1 | h1
      · exact Or.inl h1
      · exact Or.inr (Or.inl h1)
    · have : c = '.' ∨ c = 'p' ∨ c = 'y' := by
        simpa using h
      rcases this with rfl | rfl | rfl
      · exact Or.inr (Or.inr rfl)
      · exact Or.inl (by decide)
      · exact Or.inl (by decide)

theorem derivedImageFilename_chars {c : Char} {topic dt : Str} {t : PyTime}
    (hdt : ∀ x ∈ dt, x.isAlphanum = true ∨ x = '_')
    (h : c ∈ derivedImageFilename topic dt t) : safeFileChar c := by
  simp only [derivedImageFilename, List.mem_append, List.mem_cons] at h
  rcases h with h | h | h | h
  · rcases sanitize_topic_chars h with h1 | h1
    · exact Or.inl h1
    · exact Or.inr (Or.inl h1)
  · exact Or.inr (Or.inl h)
  · rcases hdt c h with h1 | h1
    · exact Or.inl h1
    · exact Or.inr (Or.inl h1)
  · rcases h with h | h | h
    · exact Or.inr (Or.inl h)
    · rcases fmtCompact_chars h with h1 | h1
      · exact Or.inl h1
      · exact Or.inr (Or.inl h1)
    · have : c = '.' ∨ c = 'p' ∨ c = 'n' ∨ c = 'g' := by
        simpa using h
      rcases this with rfl | rfl | rfl | rfl
      · exact Or.inr (Or.inr rfl)
      · exact Or.inl (by decide)
      · exact Or.inl (by decide)
      · exact Or.inl (by decide)

theorem safeFileChar_ne_sep {c : Char} (h : safeFileChar c) : c ≠ '/' ∧ c ≠ '\\' := by
  rcases h with h | h | h
  · constructor <;> rintro rfl <;> exact absurd h (by decide)
  · subst h
    exact ⟨by decide, by decide⟩
  · subst h
    exact ⟨by decide, by decide⟩

/-- Joining a directory with a relative name that does not start with a
separator appends exactly one separator. -/
theorem pyPathJoin_rel {dir l : Str} (h : l.headD ' ' ≠ '/') :
    pyPathJoin dir l = dir ++ '/' :: l := by
  rw [pyPathJoin, if_neg]
  intro hc
  exact h (by simpa using hc)

/-- The head of `x ++ c :: y` is a member of the list. -/
theorem headD_append_cons_mem (x y : Str) (c d : Char) :
    (x ++ c :: y).headD d ∈ x ++ c :: y := by
  cases x with
  | nil => simp
  | cons a as => simp

/-- Claim C10: with no explicit filename, every character of the filenames
derived by `save_code_file` and by `generate_diagram` (the latter for any
diagram type made of alphanumerics/underscores, which covers the validated
enumeration) is alphanumeric, an underscore, or a dot; in particular neither
filename contains a path separator, and joining either onto the configured
output directory yields a path directly inside that directory. -/
theorem claim_C10 (topic dt : Str) (t : PyTime)
    (hdt : ∀ x ∈ dt, x.isAlphanum = true ∨ x = '_') :
    (∀ c ∈ derivedCodeFilename topic t, safeFileChar c) ∧
    (∀ c ∈ derivedImageFilename topic dt t, safeFileChar c) ∧
    ('/' ∉ derivedCodeFilename topic t ∧ '\\' ∉ derivedCodeFilename topic t) ∧
    ('/' ∉ derivedImageFilename topic dt t ∧ '\\' ∉ derivedImageFilename topic dt t) ∧
    (∀ dir, pyPathJoin dir (derivedCodeFilename topic t) =
      dir ++ '/' :: derivedCodeFilename topic t) ∧
    (∀ dir, pyPathJoin dir (derivedImageFilename topic dt t) =
      dir ++ '/' :: derivedImageFilename topic dt t) := by
  have hcode : ∀ c ∈ derivedCodeFilename topic t, safeFileChar c :=
    fun c hc => derivedCodeFilename_chars hc
  have himg : ∀ c ∈ derivedImageFilename topic dt t, safeFileChar c :=
    fun c hc => derivedImageFilename_chars hdt hc
  refine ⟨hcode, himg, ⟨?_, ?_⟩, ⟨?_, ?_⟩, ?_, ?_⟩
  · intro hmem
    exact (safeFileChar_ne_sep (hcode _ hmem)).1 rfl
  · intro hmem
    exact (safeFileChar_ne_sep (hcode _ hmem)).2 rfl
  · intro hmem
    exact (safeFileChar_ne_sep (himg _ hmem)).1 rfl
  · intro hmem
    exact (safeFileChar_ne_sep (himg _ hmem)).2 rfl
  · intro dir
    apply pyPathJoin_rel
    have hmem : (derivedCodeFilename topic t).headD ' ' ∈ derivedCodeFilename topic t := by
      rw [derivedCodeFilename]
      exact headD_append_cons_mem _ _ _ _
    exact (safeFileChar_ne_sep (hcode _ hmem)).1
  · intro dir
    apply pyPathJoin_rel
    have hmem : (derivedImageFilename topic dt t).headD ' ' ∈
        derivedImageFilename topic dt t := by
      rw [derivedImageFilename]
      exact headD_append_cons_mem _ _ _ _
    exact (safeFileChar_ne_sep (himg _ hmem)).1

/-- Witness for C10: a topic with spaces, punctuation and a slash, and the
validated diagram type "architecture". -/
theorem claim_C10_witness :
    '/' ∉ derivedCodeFilename "a/b topic!".data ⟨2024, 3, 7, 9, 5, 2⟩ ∧
    '/' ∉ derivedImageFilename "a/b topic!".data "architecture".data
        ⟨2024, 3, 7, 9, 5, 2⟩ := by
  have h := claim_C10 "a/b topic!".data "architecture".data ⟨2024, 3, 7, 9, 5, 2⟩
    (by decide)
  exact ⟨h.2.2.1.1, h.2.2.2.1.1⟩

end GyanGuru
